import Mathlib

/-!
Verification of the static-blog build configuration.

The repository is an Eleventy-based personal blog.  Its executable surface is
three configuration files:

* `.eleventy.js` — the Eleventy configuration: a markdown-it renderer with the
  `html`, `breaks`, `linkify`, `typographer` flags, the `markdown-it-anchor`
  plugin (permalink anchors on headings) and the `markdown-it-footnote` plugin
  with a custom `footnote_caption` renderer rule, plus plugin registration and
  the `dir` settings `{input: 'src', output: '_site'}`.
* `webpack.config.js` — one JS entry point bundled into `_site/assets/main.js`
  and a CSS rule (`/\.css$/`, excluding `node_modules`) whose loader chain is
  `[MiniCssExtractPlugin.loader, 'css-loader', 'postcss-loader']`.
* `tailwind.config.js` — the utility-CSS theme (screens and colors).

Pure JavaScript expressions are embedded as Lean functions; the behaviour of
the third-party libraries (Eleventy core, markdown-it-anchor) that the
configuration drives is modelled from the specification where noted.
-/

namespace Blog

/-! ## Definitions -/

/-! ### Decimal strings

`natToStr` models JavaScript number-to-string conversion (`Number(x).toString()`
and template interpolation) for non-negative integers, as used by the footnote
caption rule and by numeric anchor suffixing.  It is written with structural
fuel so that the kernel can evaluate it. -/

/-- Little-endian base-10 digits of `n`, with `fuel` bounding the recursion
depth (`fuel = n` always suffices). -/
def toDigitsRev (fuel n : Nat) : List Nat :=
  match fuel, n with
  | 0, _ => []
  | _, 0 => []
  | fuel + 1, n + 1 => ((n + 1) % 10) :: toDigitsRev fuel ((n + 1) / 10)

/-- Little-endian base-10 digits of `n` (empty for `0`). -/
def natDigits (n : Nat) : List Nat := toDigitsRev n n

/-- Recompose a little-endian digit list into a number. -/
def fromDigits : List Nat → Nat
  | [] => 0
  | d :: ds => d + 10 * fromDigits ds

/-- The character for a single decimal digit. -/
def digitChar (d : Nat) : Char :=
  match d with
  | 0 => '0' | 1 => '1' | 2 => '2' | 3 => '3' | 4 => '4'
  | 5 => '5' | 6 => '6' | 7 => '7' | 8 => '8' | _ => '9'

/-- Decimal string of a natural number, as JavaScript prints it. -/
def natToStr (n : Nat) : String :=
  if n = 0 then "0"
  else String.mk (((natDigits n).map digitChar).reverse)

/-! ### The custom footnote caption rule

`.eleventy.js` installs, on the configured markdown-it renderer,

```
markdownLibrary.renderer.rules.footnote_caption = (tokens, idx) => {
  let n = Number(tokens[idx].meta.id + 1).toString();
  if (tokens[idx].meta.subId > 0) {
    n += ":" + tokens[idx].meta.subId;
  }
  return n;
}
```

A footnote token's `meta` carries a zero-based footnote `id` and a sub-use
counter `subId`. -/

/-- The metadata of a markdown-it-footnote token: zero-based footnote `id`
and sub-use counter `subId`. -/
structure FootnoteMeta where
  id : Nat
  subId : Nat
  deriving DecidableEq, Repr

/-- The custom `footnote_caption` renderer rule from `.eleventy.js`, as a
function of the token metadata it reads. -/
def footnote_caption (meta : FootnoteMeta) : String :=
  let n := natToStr (meta.id + 1)
  if meta.subId > 0 then n ++ ":" ++ natToStr meta.subId else n

/-! ### markdown-it construction options (from `.eleventy.js`) -/

/-- The option object passed to `markdownIt({...})`. -/
structure MarkdownItOptions where
  html : Bool
  breaks : Bool
  linkify : Bool
  typographer : Bool
  deriving DecidableEq, Repr

/-- `.eleventy.js` line 7: `markdownIt({html: true, breaks: true,
linkify: true, typographer: true})`. -/
def markdownItOptions : MarkdownItOptions :=
  { html := true, breaks := true, linkify := true, typographer := true }

/-- The option object passed to `.use(markdownItAnchor, {...})`. -/
structure AnchorOptions where
  permalink : Bool
  permalinkClass : String
  permalinkSymbol : String
  deriving DecidableEq, Repr

/-- `.eleventy.js` lines 13-16: `{permalink: true, permalinkClass:
"direct-link", permalinkSymbol: "#"}`. -/
def anchorOptions : AnchorOptions :=
  { permalink := true, permalinkClass := "direct-link", permalinkSymbol := "#" }

/-! ### Heading anchors

The markdown-it-anchor plugin itself is a third-party dependency whose code is
not in the repository; what follows models, from the specification, its
slugification and its de-duplication of anchor identifiers by numeric
suffixing. -/

/-- Modelled from the spec: markdown-it-anchor's default slugification — a
stable identifier derived from the heading text (lowercased, with
non-alphanumeric characters replaced by hyphens).  The plugin's own code is
not in the repository. -/
def slugify (s : String) : String :=
  String.mk (s.data.map (fun c => if c.isAlphanum then c.toLower else '-'))

/-- The `k`-th numeric-suffix candidate for a duplicated slug: `slug-k`. -/
def candidate (slug : String) (k : Nat) : String :=
  slug ++ "-" ++ natToStr k

/-- Modelled from the spec: markdown-it-anchor resolves a duplicate heading
slug by appending `-1`, `-2`, … until the identifier is unused (the plugin's
own code is not in the repository).  The search is bounded by
`used.length + 1`, which always suffices. -/
def freshId (used : List String) (slug : String) : String :=
  if slug ∈ used then
    match ((List.range (used.length + 1)).map
        (fun k => candidate slug (k + 1))).find? (fun c => decide (c ∉ used)) with
    | some c => c
    | none => slug
  else slug

/-- Assign anchor identifiers to a document's heading slugs in order,
remembering which identifiers are already taken. -/
def assignIdsAux (used : List String) : List String → List String
  | [] => []
  | s :: rest => freshId used s :: assignIdsAux (freshId used s :: used) rest

/-- The anchor identifiers of one document's headings, de-duplicated. -/
def assignIds (slugs : List String) : List String := assignIdsAux [] slugs

/-- What the anchor plugin attaches to one rendered heading: the identifier,
and the permalink anchor's symbol and CSS class. -/
structure RenderedHeading where
  id : String
  linkSymbol : String
  linkClass : String
  deriving DecidableEq, Repr

/-- Modelled from the spec: with `permalink: true`, every heading of a
document receives a slugified, de-duplicated identifier and a permalink
anchor rendered with the configured `permalinkSymbol` and `permalinkClass`
(markdown-it-anchor's own code is not in the repository; its configuration
is `anchorOptions`). -/
def renderHeadings (headingTexts : List String) : List RenderedHeading :=
  (assignIds (headingTexts.map slugify)).map
    (fun i => { id := i, linkSymbol := anchorOptions.permalinkSymbol,
                linkClass := anchorOptions.permalinkClass })

/-! ### The rendering pipeline, document-shaped

A document exposes to the configured renderer the heading texts and the
footnote tokens; the rendered result carries the heading anchors and the
footnote captions. -/

/-- The parts of a parsed Markdown document that the configured extensions
consume. -/
structure MarkdownDoc where
  headingTexts : List String
  footnoteTokens : List FootnoteMeta
  deriving DecidableEq, Repr

/-- The parts of the rendered HTML that the configured extensions produce. -/
structure RenderedDoc where
  headings : List RenderedHeading
  footnoteCaptions : List String
  deriving DecidableEq, Repr

/-- Modelled from the spec: the configured markdown-it renderer as a pure
function of the document.  The custom caption rule reads only the token list
and index; the anchor assignment reads only the heading texts.  (markdown-it
core is not in the repository; the caption rule and the configuration are.) -/
def renderDocument (doc : MarkdownDoc) : RenderedDoc :=
  { headings := renderHeadings doc.headingTexts,
    footnoteCaptions := doc.footnoteTokens.map footnote_caption }

/-- Rendering during build run number `run`: the configured renderer keeps no
cross-run state, so the run number does not enter the computation. -/
def renderRun (_run : Nat) (doc : MarkdownDoc) : RenderedDoc :=
  renderDocument doc

/-! ### The Eleventy build (for layout errors)

Eleventy core is not part of the repository; the build step that resolves a
post's `layout` front-matter field against the registered layouts is modelled
from the specification. -/

/-- A content file as the build sees it: source path, front-matter `layout`
name, and body. -/
structure Post where
  path : String
  layout : String
  body : MarkdownDoc
  deriving DecidableEq, Repr

/-- One fully built output page. -/
structure BuiltPage where
  path : String
  layout : String
  content : RenderedDoc
  deriving DecidableEq, Repr

/-- Modelled from the spec: the Eleventy build over the post collection
(Eleventy core is not in the repository).  Each post is rendered and wrapped
in its named layout; a post whose `layout` front-matter names no registered
layout is a fatal error and the build aborts. -/
def buildPosts (registeredLayouts : List String) :
    List Post → Except String (List BuiltPage)
  | [] => .ok []
  | p :: rest =>
    if p.layout ∈ registeredLayouts then
      match buildPosts registeredLayouts rest with
      | .ok pages =>
        .ok ({ path := p.path, layout := p.layout,
               content := renderDocument p.body } :: pages)
      | .error e => .error e
    else .error ("Unknown layout: " ++ p.layout ++ " in " ++ p.path)

/-- Modelled from the spec: the build process exit code — 0 on success,
1 when the build aborts with an error. -/
def exitCode (r : Except String (List BuiltPage)) : Nat :=
  match r with
  | .ok _ => 0
  | .error _ => 1

/-! ### The webpack configuration (`src/unnamed/part_004`) -/

/-- The `dir` settings `.eleventy.js` returns: `{input: 'src',
output: '_site'}`. -/
structure DirConfig where
  input : String
  output : String
  deriving DecidableEq, Repr

/-- `.eleventy.js` line 37: `dir: { input: 'src', output: '_site' }`. -/
def eleventyDir : DirConfig := { input := "src", output := "_site" }

/-- `path.resolve(__dirname, rel)` for a relative `rel`: the path joined
under the configuration file's directory. -/
def pathResolve (dirname rel : String) : String := dirname ++ "/" ++ rel

/-- The webpack `output` object. -/
structure WebpackOutput where
  path : String
  filename : String
  deriving DecidableEq, Repr

/-- webpack `entry: './src/scripts/main.js'`. -/
def webpackEntry : String := "./src/scripts/main.js"

/-- webpack `output: {path: path.resolve(__dirname, '_site/assets'),
filename: 'main.js'}`, as a function of `__dirname`. -/
def webpackOutput (dirname : String) : WebpackOutput :=
  { path := pathResolve dirname "_site/assets", filename := "main.js" }

/-- `p` lies inside directory `d`: `d` followed by the path separator starts
the path `p`. -/
def isInsideDir (p d : String) : Bool :=
  List.isPrefixOf (d.data ++ ['/']) p.data

/-- Whether `pat` occurs contiguously inside `l` (an unanchored regex match
of a literal pattern). -/
def hasSub (pat : List Char) : List Char → Bool
  | [] => pat.isEmpty
  | a :: rest => pat.isPrefixOf (a :: rest) || hasSub pat rest

/-- The CSS rule's `test` regex `/\.css$/`: the path ends in ".css". -/
def testCss (p : String) : Bool := List.isSuffixOf ".css".data p.data

/-- The CSS rule's `exclude` regex `/node_modules/`: the path contains
"node_modules". -/
def matchesNodeModules (p : String) : Bool := hasSub "node_modules".data p.data

/-- Whether the webpack CSS module rule applies to a file: its `test`
matches and its `exclude` does not. -/
def cssRuleApplies (p : String) : Bool := testCss p && !matchesNodeModules p

/-- The CSS rule's loader chain, as configured:
`use: [MiniCssExtractPlugin.loader, 'css-loader', 'postcss-loader']`. -/
def cssRuleUse : List String :=
  ["MiniCssExtractPlugin.loader", "css-loader", "postcss-loader"]

/-! ### The two Eleventy configuration modules (`.eleventy.js` and the
earlier variant `src/unnamed/part_000`) -/

/-- The mutable Eleventy configuration object, restricted to the fields the
two configuration functions touch. -/
structure EleventyConfigState where
  plugins : List String
  useGitIgnore : Bool
  libraries : List (String × String)
  templateFormats : List String
  deriving DecidableEq, Repr

/-- `eleventyConfig.addPlugin(...)`. -/
def addPlugin (name : String) (cfg : EleventyConfigState) : EleventyConfigState :=
  { cfg with plugins := cfg.plugins ++ [name] }

/-- `eleventyConfig.setUseGitIgnore(...)`. -/
def setUseGitIgnore (b : Bool) (cfg : EleventyConfigState) : EleventyConfigState :=
  { cfg with useGitIgnore := b }

/-- `eleventyConfig.setLibrary(fmt, lib)`. -/
def setLibrary (fmt lib : String) (cfg : EleventyConfigState) : EleventyConfigState :=
  { cfg with libraries := cfg.libraries ++ [(fmt, lib)] }

/-- `eleventyConfig.setTemplateFormats(...)`. -/
def setTemplateFormats (fmts : List String) (cfg : EleventyConfigState) :
    EleventyConfigState :=
  { cfg with templateFormats := fmts }

/-- `.eleventy.js` `module.exports`: registers the date plugin, the
syntax-highlight plugin, disables gitignore filtering, installs the markdown
library, sets the template formats, and returns the `dir` settings. -/
def eleventyConfigCurrent (cfg : EleventyConfigState) :
    EleventyConfigState × DirConfig :=
  (setTemplateFormats ["md", "css", "jpg"]
    (setLibrary "md" "markdownLibrary"
      (setUseGitIgnore false
        (addPlugin "@11ty/eleventy-plugin-syntaxhighlight"
          (addPlugin "eleventy-plugin-date" cfg)))),
   eleventyDir)

/-- `src/unnamed/part_000` `module.exports` (the earlier configuration):
registers the date plugin and the syntax-highlight plugin and returns the
`dir` settings. -/
def eleventyConfigEarlier (cfg : EleventyConfigState) :
    EleventyConfigState × DirConfig :=
  (addPlugin "@11ty/eleventy-plugin-syntaxhighlight"
    (addPlugin "eleventy-plugin-date" cfg),
   eleventyDir)

/-! ### The tailwind theme (`tailwind.config.js`) -/

/-- `theme.screens`; the Lean field `xxl` embeds the JavaScript key `'2xl'`. -/
structure TailwindScreens where
  sm : String
  md : String
  lg : String
  xl : String
  xxl : String
  deriving DecidableEq, Repr

/-- `tailwind.config.js` lines 7-13. -/
def themeScreens : TailwindScreens :=
  { sm := "640px", md := "768px", lg := "768px", xl := "768px",
    xxl := "768px" }

/-! ## Theorems -/

theorem fromDigits_toDigitsRev (fuel : Nat) :
    ∀ n, n ≤ fuel → fromDigits (toDigitsRev fuel n) = n := by
  induction fuel with
  | zero => intro n hn; interval_cases n; rfl
  | succ fuel ih =>
    intro n hn
    match n with
    | 0 => rfl
    | n + 1 =>
      have hdiv : (n + 1) / 10 ≤ fuel := by
        have := Nat.div_lt_self (Nat.succ_pos n) (by norm_num : 1 < 10)
        omega
      simp only [toDigitsRev, fromDigits, ih _ hdiv]
      omega

theorem fromDigits_natDigits (n : Nat) : fromDigits (natDigits n) = n :=
  fromDigits_toDigitsRev n n (Nat.le_refl n)

theorem toDigitsRev_lt_ten (fuel : Nat) :
    ∀ n d, d ∈ toDigitsRev fuel n → d < 10 := by
  induction fuel with
  | zero => intro n d hd; simp [toDigitsRev] at hd
  | succ fuel ih =>
    intro n d hd
    match n with
    | 0 => simp [toDigitsRev] at hd
    | n + 1 =>
      simp only [toDigitsRev, List.mem_cons] at hd
      rcases hd with h | h
      · subst h; exact Nat.mod_lt _ (by norm_num)
      · exact ih _ _ h

theorem natDigits_lt_ten {n d : Nat} (hd : d ∈ natDigits n) : d < 10 :=
  toDigitsRev_lt_ten n n d hd

theorem digitChar_inj {a b : Nat} (ha : a < 10) (hb : b < 10)
    (h : digitChar a = digitChar b) : a = b := by
  interval_cases a <;> interval_cases b <;> simp_all [digitChar]

theorem map_digitChar_inj : ∀ {l₁ l₂ : List Nat},
    (∀ d ∈ l₁, d < 10) → (∀ d ∈ l₂, d < 10) →
    l₁.map digitChar = l₂.map digitChar → l₁ = l₂ := by
  intro l₁
  induction l₁ with
  | nil => intro l₂ _ _ h; cases l₂ <;> simp_all
  | cons a as ih =>
    intro l₂ h₁ h₂ h
    cases l₂ with
    | nil => simp at h
    | cons b bs =>
      simp only [List.map_cons, List.cons.injEq] at h
      have hd : a = b :=
        digitChar_inj (h₁ a (List.mem_cons_self a as))
          (h₂ b (List.mem_cons_self b bs)) h.1
      have ht : as = bs :=
        ih (fun d hd => h₁ d (List.mem_cons_of_mem a hd))
          (fun d hd => h₂ d (List.mem_cons_of_mem b hd)) h.2
      rw [hd, ht]

theorem natToStr_inj : Function.Injective natToStr := by
  intro a b h
  unfold natToStr at h
  by_cases ha : a = 0 <;> by_cases hb : b = 0
  · omega
  · exfalso
    simp only [ha, if_pos rfl, if_neg hb] at h
    have hdata : ['0'] = ((natDigits b).map digitChar).reverse :=
      congrArg String.data h
    have hmap : (natDigits b).map digitChar = ['0'] := by
      have := congrArg List.reverse hdata
      simpa using this.symm
    have hdig : natDigits b = [0] :=
      map_digitChar_inj (fun d hd => natDigits_lt_ten hd)
        (by intro d hd; simp at hd; omega) (by simpa [digitChar] using hmap)
    have := fromDigits_natDigits b
    rw [hdig] at this
    simp [fromDigits] at this
    omega
  · exfalso
    simp only [hb, if_pos rfl, if_neg ha] at h
    have hdata : ((natDigits a).map digitChar).reverse = ['0'] :=
      congrArg String.data h
    have hmap : (natDigits a).map digitChar = ['0'] := by
      have := congrArg List.reverse hdata
      simpa using this
    have hdig : natDigits a = [0] :=
      map_digitChar_inj (fun d hd => natDigits_lt_ten hd)
        (by intro d hd; simp at hd; omega) (by simpa [digitChar] using hmap)
    have := fromDigits_natDigits a
    rw [hdig] at this
    simp [fromDigits] at this
    omega
  · simp only [if_neg ha, if_neg hb] at h
    have hdata : ((natDigits a).map digitChar).reverse
        = ((natDigits b).map digitChar).reverse := congrArg String.data h
    have hmap : (natDigits a).map digitChar = (natDigits b).map digitChar :=
      List.reverse_injective hdata
    have hdig : natDigits a = natDigits b :=
      map_digitChar_inj (fun d hd => natDigits_lt_ten hd)
        (fun d hd => natDigits_lt_ten hd) hmap
    have := fromDigits_natDigits a
    rw [hdig, fromDigits_natDigits] at this
    omega

theorem string_data_inj {s t : String} (h : s.data = t.data) : s = t := by
  cases s; cases t; exact congrArg String.mk h

theorem candidate_inj (slug : String) {j k : Nat}
    (h : candidate slug j = candidate slug k) : j = k := by
  have hdata := congrArg String.data h
  simp only [candidate, String.data_append] at hdata
  have := List.append_cancel_left hdata
  exact natToStr_inj (string_data_inj this)

theorem freshId_not_mem (used : List String) (slug : String) :
    freshId used slug ∉ used := by
  unfold freshId
  by_cases hs : slug ∈ used
  · simp only [if_pos hs]
    split
    · next c hfind =>
      have := List.find?_some hfind
      simpa using of_decide_eq_true this
    · next hfind =>
      exfalso
      have hall : ∀ c ∈ (List.range (used.length + 1)).map
          (fun k => candidate slug (k + 1)), c ∈ used := by
        intro c hc
        have := List.find?_eq_none.mp hfind c hc
        simpa using this
      have hnodup : ((List.range (used.length + 1)).map
          (fun k => candidate slug (k + 1))).Nodup := by
        refine List.Nodup.map ?_ (List.nodup_range _)
        intro j k h
        have := candidate_inj slug h
        omega
      have hle := (List.subperm_of_subset hnodup hall).length_le
      simp at hle
  · simp only [if_neg hs]
    exact hs

theorem assignIdsAux_nodup_disjoint (l : List String) :
    ∀ used, (assignIdsAux used l).Nodup ∧
      ∀ x ∈ assignIdsAux used l, x ∉ used := by
  induction l with
  | nil => intro used; simp [assignIdsAux]
  | cons s rest ih =>
    intro used
    simp only [assignIdsAux]
    obtain ⟨hnd, hdisj⟩ := ih (freshId used s :: used)
    refine ⟨List.nodup_cons.mpr ⟨?_, hnd⟩, ?_⟩
    · intro hmem
      exact hdisj _ hmem (List.mem_cons_self _ _)
    · intro x hx
      rcases List.mem_cons.mp hx with h | h
      · subst h; exact freshId_not_mem used s
      · intro hxu
        exact hdisj x h (List.mem_cons_of_mem _ hxu)

theorem assignIds_nodup (slugs : List String) : (assignIds slugs).Nodup :=
  (assignIdsAux_nodup_disjoint slugs []).1

theorem isPrefixOf_append_same {s t : List Char} (l : List Char)
    (h : List.isPrefixOf s t = true) :
    List.isPrefixOf (l ++ s) (l ++ t) = true := by
  induction l with
  | nil => simpa using h
  | cons a l ih => simpa [List.isPrefixOf] using ih

theorem buildPosts_error_of_unknown (layouts : List String) :
    ∀ posts : List Post, ∀ p ∈ posts, p.layout ∉ layouts →
      ∃ e, buildPosts layouts posts = Except.error e := by
  intro posts
  induction posts with
  | nil => intro p hp; simp at hp
  | cons q rest ih =>
    intro p hp hl
    by_cases hq : q.layout ∈ layouts
    · have hpr : p ∈ rest := by
        rcases List.mem_cons.mp hp with h | h
        · exfalso; exact hl (h ▸ hq)
        · exact h
      obtain ⟨e, he⟩ := ih p hpr hl
      exact ⟨e, by simp [buildPosts, hq, he]⟩
    · exact ⟨"Unknown layout: " ++ q.layout ++ " in " ++ q.path,
        by simp [buildPosts, hq]⟩

theorem map_mk_id (l : List String) :
    (l.map (fun i => RenderedHeading.mk i anchorOptions.permalinkSymbol
      anchorOptions.permalinkClass)).map RenderedHeading.id = l := by
  induction l with
  | nil => rfl
  | cons a l ih => simp [ih]

/-- C1: the custom footnote caption renderer returns the decimal string of
`id + 1` when `subId = 0`, and that string followed by ":" and `subId` when
`subId > 0`; in particular the first footnote (id 0) used twice yields the
captions "1" and "1:1". -/
theorem footnote_caption_spec (id subId : Nat) :
    (subId = 0 → footnote_caption ⟨id, subId⟩ = natToStr (id + 1)) ∧
    (subId > 0 → footnote_caption ⟨id, subId⟩
      = natToStr (id + 1) ++ ":" ++ natToStr subId) ∧
    footnote_caption ⟨0, 0⟩ = "1" ∧ footnote_caption ⟨0, 1⟩ = "1:1" := by
  refine ⟨fun h => ?_, fun h => ?_, by decide, by decide⟩
  · simp [footnote_caption, h]
  · simp [footnote_caption, h]

theorem footnote_caption_spec_witness :
    footnote_caption ⟨4, 0⟩ = natToStr 5 ∧
    footnote_caption ⟨4, 3⟩ = natToStr 5 ++ ":" ++ natToStr 3 :=
  ⟨(footnote_caption_spec 4 0).1 rfl, (footnote_caption_spec 4 3).2.1 (by decide)⟩

/-- C2: a post whose `layout` front-matter field names no registered layout
makes the build abort: the exit code is non-zero and no output list is
produced as success. -/
theorem unknown_layout_fails (layouts : List String) (posts : List Post)
    (p : Post) (hp : p ∈ posts) (hl : p.layout ∉ layouts) :
    exitCode (buildPosts layouts posts) ≠ 0 ∧
    ∀ pages, buildPosts layouts posts ≠ Except.ok pages := by
  obtain ⟨e, he⟩ := buildPosts_error_of_unknown layouts posts p hp hl
  rw [he]
  exact ⟨by simp [exitCode], fun pages h => by cases h⟩

theorem unknown_layout_fails_witness :
    exitCode (buildPosts ["layouts/post.njk"]
      [{ path := "src/posts/a.md", layout := "layouts/missing.njk",
         body := ⟨[], []⟩ }]) ≠ 0 :=
  (unknown_layout_fails ["layouts/post.njk"]
    [{ path := "src/posts/a.md", layout := "layouts/missing.njk",
       body := ⟨[], []⟩ }]
    { path := "src/posts/a.md", layout := "layouts/missing.njk",
      body := ⟨[], []⟩ }
    (List.mem_singleton.mpr rfl) (by decide)).1

/-- C3: rendering is deterministic — any two build runs on byte-identical
document input produce identical rendered output. -/
theorem render_deterministic (r₁ r₂ : Nat) (d₁ d₂ : MarkdownDoc)
    (h : d₁ = d₂) : renderRun r₁ d₁ = renderRun r₂ d₂ := by
  subst h; rfl

theorem render_deterministic_witness :
    renderRun 0 ⟨["A"], [⟨0, 0⟩]⟩ = renderRun 1 ⟨["A"], [⟨0, 0⟩]⟩ :=
  render_deterministic 0 1 ⟨["A"], [⟨0, 0⟩]⟩ ⟨["A"], [⟨0, 0⟩]⟩ rfl

/-- C4: within one rendered document, the anchor identifiers attached to the
headings are pairwise distinct, even when heading texts coincide. -/
theorem heading_ids_nodup (headingTexts : List String) :
    ((renderHeadings headingTexts).map RenderedHeading.id).Nodup := by
  unfold renderHeadings
  rw [map_mk_id]
  exact assignIds_nodup (headingTexts.map slugify)

/-- C5: the markdown-it renderer is constructed with all four flags enabled:
`html`, `breaks`, `linkify` and `typographer`. -/
theorem markdownIt_flags :
    markdownItOptions.html = true ∧ markdownItOptions.breaks = true ∧
    markdownItOptions.linkify = true ∧ markdownItOptions.typographer = true :=
  ⟨rfl, rfl, rfl, rfl⟩

/-- C6: every rendered heading carries a permalink anchor with symbol "#"
and CSS class "direct-link", attached to the slugified, de-duplicated
identifier derived from the heading texts. -/
theorem heading_permalink_spec (headingTexts : List String) :
    (∀ h ∈ renderHeadings headingTexts,
      h.linkSymbol = "#" ∧ h.linkClass = "direct-link") ∧
    (renderHeadings headingTexts).map RenderedHeading.id
      = assignIds (headingTexts.map slugify) ∧
    anchorOptions.permalink = true := by
  refine ⟨?_, ?_, rfl⟩
  · intro h hmem
    unfold renderHeadings at hmem
    obtain ⟨i, _, rfl⟩ := List.mem_map.mp hmem
    exact ⟨rfl, rfl⟩
  · unfold renderHeadings
    exact map_mk_id (assignIds (headingTexts.map slugify))

theorem heading_permalink_spec_witness :
    (RenderedHeading.mk "intro" "#" "direct-link").linkSymbol = "#" ∧
    (RenderedHeading.mk "intro" "#" "direct-link").linkClass
      = "direct-link" :=
  (heading_permalink_spec ["Intro"]).1
    (RenderedHeading.mk "intro" "#" "direct-link") (by decide)

/-- C7: the bundler takes the single entry point `./src/scripts/main.js` and
emits `main.js` into `_site/assets`, a subdirectory of the site generator's
output directory `_site`. -/
theorem webpack_entry_output (dirname : String) :
    webpackEntry = "./src/scripts/main.js" ∧
    (webpackOutput dirname).filename = "main.js" ∧
    (webpackOutput dirname).path = pathResolve dirname "_site/assets" ∧
    eleventyDir.output = "_site" ∧
    isInsideDir (webpackOutput dirname).path
      (pathResolve dirname eleventyDir.output) = true := by
  refine ⟨rfl, rfl, rfl, rfl, ?_⟩
  show List.isPrefixOf (((dirname ++ "/") ++ "_site").data ++ ['/'])
    (((dirname ++ "/") ++ "_site/assets").data) = true
  rw [String.data_append, String.data_append, List.append_assoc]
  exact isPrefixOf_append_same _ (by decide)

/-- C8: the webpack CSS rule applies exactly to files ending ".css" that are
not under node_modules, and its configured chain is the extraction loader
followed by css-loader and postcss-loader. -/
theorem css_rule_spec (p : String) :
    (testCss p = true → matchesNodeModules p = false →
      cssRuleApplies p = true) ∧
    (matchesNodeModules p = true → cssRuleApplies p = false) ∧
    cssRuleUse
      = ["MiniCssExtractPlugin.loader", "css-loader", "postcss-loader"] ∧
    cssRuleUse.indexOf "css-loader" < cssRuleUse.indexOf "postcss-loader" := by
  refine ⟨fun h₁ h₂ => ?_, fun h => ?_, rfl, by decide⟩
  · simp [cssRuleApplies, h₁, h₂]
  · simp [cssRuleApplies, h]

theorem css_rule_spec_witness :
    cssRuleApplies "src/styles/main.css" = true ∧
    cssRuleApplies "node_modules/a/dist.css" = false :=
  ⟨(css_rule_spec "src/styles/main.css").1 (by decide) (by decide),
   (css_rule_spec "node_modules/a/dist.css").2.1 (by decide)⟩

/-- C9: both Eleventy configuration modules return the same `dir` settings
`{input: 'src', output: '_site'}`, and both register the date plugin and the
syntax-highlight plugin. -/
theorem eleventy_configs_agree (cfg : EleventyConfigState) :
    (eleventyConfigCurrent cfg).2 = (eleventyConfigEarlier cfg).2 ∧
    (eleventyConfigCurrent cfg).2 = { input := "src", output := "_site" } ∧
    "eleventy-plugin-date" ∈ (eleventyConfigCurrent cfg).1.plugins ∧
    "@11ty/eleventy-plugin-syntaxhighlight"
      ∈ (eleventyConfigCurrent cfg).1.plugins ∧
    "eleventy-plugin-date" ∈ (eleventyConfigEarlier cfg).1.plugins ∧
    "@11ty/eleventy-plugin-syntaxhighlight"
      ∈ (eleventyConfigEarlier cfg).1.plugins := by
  refine ⟨rfl, rfl, ?_, ?_, ?_, ?_⟩ <;>
    simp [eleventyConfigCurrent, eleventyConfigEarlier, addPlugin,
      setUseGitIgnore, setLibrary, setTemplateFormats]

/-- C10: in the tailwind theme, the breakpoints `md`, `lg`, `xl` and `2xl`
are all bound to "768px"; only `sm`, at "640px", differs. -/
theorem tailwind_screens_spec :
    themeScreens.sm = "640px" ∧ themeScreens.md = "768px" ∧
    themeScreens.lg = themeScreens.md ∧ themeScreens.xl = themeScreens.md ∧
    themeScreens.xxl = themeScreens.md ∧ themeScreens.sm ≠ themeScreens.md :=
  ⟨rfl, rfl, rfl, rfl, rfl, by decide⟩

end Blog
